import Mathlib

/-!
Verification of `pipelinex/extras/hooks/mlflow_time_logger.py`.

The module is a timing hook: it records per-task begin/end wall-clock
timestamps in dictionaries keyed by a derived metric name, computes
durations, and at pipeline end optionally builds Gantt-chart rows and
writes an HTML chart file.

Shallow embedding choices:
* Python `dict[str, float]` becomes an association list
  `List (String × Rat)` with first-match lookup (`dictGet`, modelling
  `dict.get`, which returns `None` when the key is absent) and
  overwrite-or-append update (`dictUpdate`, modelling `dict.update`
  with a one-key dictionary).
* Wall-clock times (`time.time()` results) are inputs of type `Rat`.
* Side effects (the `log.info` calls, `mlflow.log_metrics`,
  `plotly...create_gantt`, `Path(...).parent.mkdir`, `fig.write_html`,
  `mlflow.log_artifact`) are modelled as an emitted list of `Effect`
  values; a logging effect carries the dictionary being logged.
* A Python exception escaping the hook method is modelled as
  `err = some msg` in the returned `StepResult`; in that case the
  effect list contains exactly the effects emitted before the raise and
  the returned state contains exactly the mutations made before it.
-/

/-- A Python dictionary from metric names to timestamps, as an
association list read by first match. -/
def dictGet (m : List (String × Rat)) (k : String) : Option Rat :=
  match m with
  | [] => none
  | p :: rest => if p.1 = k then some p.2 else dictGet rest k

/-- `d.update({k: v})`: overwrite the entry for `k` in place if present,
otherwise append it (Python dicts keep insertion order). -/
def dictUpdate (m : List (String × Rat)) (k : String) (v : Rat) :
    List (String × Rat) :=
  match m with
  | [] => [(k, v)]
  | p :: rest => if p.1 = k then (k, v) :: rest else p :: dictUpdate rest k v

/-- `d.keys()` in insertion order. -/
def dictKeys (m : List (String × Rat)) : List String :=
  m.map Prod.fst

/-- The part of a `kedro.pipeline.node.Node` that the hook consumes:
its `_func_name` string and its declared output names. -/
structure Node where
  func_name : String
  outputs : List String

/-- `_get_metric_name(node)`: remove every `<` and `>` from
`node._func_name`, keep the part before the first space, keep the part
after the last dot, truncate to 250 characters, then format
`"_time_to_run {} -- {}"` with the declared output names joined by
`" - "`. -/
def _get_metric_name (node : Node) : String :=
  let func_name := String.mk
    ((((((node.func_name.data.filter
        (fun c => c != '<' && c != '>')).takeWhile
        (fun c => c != ' ')).reverse.takeWhile
        (fun c => c != '.')).reverse).take 250))
  "_time_to_run " ++ func_name ++ " -- " ++ String.intercalate " - " node.outputs

/-- The hook's configuration after `__init__` ran: `enable_mlflow` and
`enable_plotly` are the stored fields (already combined with the
`find_spec` probe), `gantt_params` is the opaque pass-through option
dictionary, and `metric_name_func` is the pluggable naming strategy. -/
structure HookConfig where
  enable_mlflow : Bool
  enable_plotly : Bool
  gantt_filepath : Option String
  gantt_params : List (String × String)
  metric_name_func : Node → String

/-- `MLflowTimeLoggerHook.__init__`: the stored capability flags are
`find_spec("mlflow") and enable_mlflow` and
`find_spec("plotly") and enable_plotly`, probed exactly here;
`mlflow_available`/`plotly_available` model the `find_spec` results. -/
def mkHookConfig (mlflow_available plotly_available : Bool)
    (enable_mlflow enable_plotly : Bool)
    (gantt_filepath : Option String)
    (gantt_params : List (String × String))
    (metric_name_func : Node → String) : HookConfig :=
  { enable_mlflow := mlflow_available && enable_mlflow
    enable_plotly := plotly_available && enable_plotly
    gantt_filepath := gantt_filepath
    gantt_params := gantt_params
    metric_name_func := metric_name_func }

/-- The hook's (class-level, process-wide) mutable state: the three
timestamp/duration dictionaries. -/
structure HookState where
  time_begin_dict : List (String × Rat)
  time_end_dict : List (String × Rat)
  time_dict : List (String × Rat)
deriving DecidableEq

/-- One row of the Gantt-chart dataframe:
`dict(Task=k, Start=..., Finish=...)`. -/
structure GanttRow where
  Task : String
  Start : Rat
  Finish : Rat
deriving DecidableEq

/-- The observable side effects a hook method can emit, in order. -/
inductive Effect where
  | logTimeDict (d : List (String × Rat))
  | mlflowLogMetrics (d : List (String × Rat))
  | createGantt (rows : List GanttRow) (params : List (String × String))
  | mkdirParent (path : String)
  | writeHtml (path : String)
  | mlflowLogArtifact (path : String)
deriving DecidableEq

/-- Result of one hook callback: the state after the call (including
mutations made before any raise), the effects emitted before any raise,
and the escaping exception if one was raised. -/
structure StepResult where
  state : HookState
  effects : List Effect
  err : Option String
deriving DecidableEq

/-- `before_node_run`: store the current time under the derived metric
name in the begin dictionary. -/
def before_node_run (cfg : HookConfig) (st : HookState) (node : Node)
    (t : Rat) : HookState :=
  let node_name := cfg.metric_name_func node
  { st with time_begin_dict := dictUpdate st.time_begin_dict node_name t }

/-- `after_node_run`: store the current time in the end dictionary,
compute `end.get(name) - begin.get(name)` (in Python, `float - None`
raises `TypeError` when the begin entry is missing, before the
`log.info` call), log the one-entry duration dictionary, forward it to
mlflow when `enable_mlflow` holds, and store it in the duration
dictionary. -/
def after_node_run (cfg : HookConfig) (st : HookState) (node : Node)
    (t : Rat) : StepResult :=
  let node_name := cfg.metric_name_func node
  let time_end_dict := dictUpdate st.time_end_dict node_name t
  let st1 := { st with time_end_dict := time_end_dict }
  match dictGet time_end_dict node_name, dictGet st.time_begin_dict node_name with
  | some t_end, some t_begin =>
    let d := t_end - t_begin
    { state := { st1 with time_dict := dictUpdate st1.time_dict node_name d }
      effects := [Effect.logTimeDict [(node_name, d)]] ++
        (if cfg.enable_mlflow = true
          then [Effect.mlflowLogMetrics [(node_name, d)]] else [])
      err := none }
  | _, _ =>
    { state := st1
      effects := []
      err := some "TypeError: unsupported operand type for -" }

/-- The Gantt dataframe comprehension: one row per key of the begin
dictionary, `Start` and `Finish` being the begin/end timestamps times
1000; `None * 1000` raises `TypeError` when an end entry is missing, so
the whole comprehension fails (`none`). -/
def buildRows (bm em : List (String × Rat)) : List String → Option (List GanttRow)
  | [] => some []
  | k :: ks =>
    match dictGet bm k, dictGet em k with
    | some b, some e =>
      (buildRows bm em ks).map
        (fun rows => { Task := k, Start := b * 1000, Finish := e * 1000 } :: rows)
    | _, _ => none

/-- `self.gantt_filepath or (tempfile.gettempdir() + "/_gantt.html")`:
Python `or` falls through on `None` and on the empty string. -/
def resolveGanttPath (gantt_filepath : Option String) (tmpdir : String) : String :=
  match gantt_filepath with
  | some fp => if fp = "" then tmpdir ++ "/_gantt.html" else fp
  | none => tmpdir ++ "/_gantt.html"

/-- Effects and exception of `after_pipeline_run`: log the duration
dictionary; when plotly is enabled and the begin dictionary is truthy
(nonempty), build the rows, create the chart with the pass-through
params, create the parent directories of the output path, write the
HTML file, and upload it as an mlflow artifact when mlflow is
enabled. -/
def after_pipeline_run_output (cfg : HookConfig) (st : HookState)
    (tmpdir : String) : List Effect × Option String :=
  if cfg.enable_plotly && !st.time_begin_dict.isEmpty then
    match buildRows st.time_begin_dict st.time_end_dict (dictKeys st.time_begin_dict) with
    | some df =>
      let fp := resolveGanttPath cfg.gantt_filepath tmpdir
      ([Effect.logTimeDict st.time_dict,
        Effect.createGantt df cfg.gantt_params,
        Effect.mkdirParent fp,
        Effect.writeHtml fp] ++
        (if cfg.enable_mlflow = true then [Effect.mlflowLogArtifact fp] else []),
       none)
    | none =>
      ([Effect.logTimeDict st.time_dict],
       some "TypeError: unsupported operand type for *")
  else
    ([Effect.logTimeDict st.time_dict], none)

/-- `after_pipeline_run`: never mutates the three dictionaries. -/
def after_pipeline_run (cfg : HookConfig) (st : HookState)
    (tmpdir : String) : StepResult :=
  { state := st
    effects := (after_pipeline_run_output cfg st tmpdir).1
    err := (after_pipeline_run_output cfg st tmpdir).2 }

/-! ### Dictionary lemmas -/

theorem dictGet_update_self (m : List (String × Rat)) (k : String) (v : Rat) :
    dictGet (dictUpdate m k v) k = some v := by
  induction m with
  | nil => simp [dictUpdate, dictGet]
  | cons p rest ih =>
    by_cases h : p.1 = k
    · simp [dictUpdate, dictGet, h]
    · simp [dictUpdate, dictGet, h, ih]

theorem dictGet_update_of_ne (m : List (String × Rat)) (k k' : String) (v : Rat)
    (h : k' ≠ k) : dictGet (dictUpdate m k v) k' = dictGet m k' := by
  have hne : ¬ k = k' := fun hk => h hk.symm
  induction m with
  | nil => simp [dictUpdate, dictGet, hne]
  | cons p rest ih =>
    by_cases hp : p.1 = k
    · subst hp
      simp [dictUpdate, dictGet, hne]
    · simp [dictUpdate, hp, dictGet, ih]

theorem dictGet_update_isSome (m : List (String × Rat)) (k k' : String) (v : Rat)
    (h : (dictGet m k').isSome) : (dictGet (dictUpdate m k v) k').isSome := by
  by_cases hk : k' = k
  · subst hk; simp [dictGet_update_self]
  · rw [dictGet_update_of_ne m k k' v hk]; exact h

theorem dictGet_isSome_of_mem_keys (m : List (String × Rat)) (k : String)
    (h : k ∈ dictKeys m) : (dictGet m k).isSome := by
  induction m with
  | nil => simp [dictKeys] at h
  | cons p rest ih =>
    simp only [dictKeys, List.map_cons, List.mem_cons] at h
    rcases h with h | h
    · simp [dictGet, h.symm]
    · by_cases hp : p.1 = k
      · simp [dictGet, hp]
      · simp only [dictGet, if_neg hp]
        exact ih h

/-! ### Branch lemmas for `after_node_run` -/

theorem after_node_run_of_begin_some (cfg : HookConfig) (st : HookState)
    (node : Node) (t tb : Rat)
    (h : dictGet st.time_begin_dict (cfg.metric_name_func node) = some tb) :
    after_node_run cfg st node t =
      { state :=
          { st with
            time_end_dict := dictUpdate st.time_end_dict (cfg.metric_name_func node) t
            time_dict := dictUpdate st.time_dict (cfg.metric_name_func node) (t - tb) }
        effects := [Effect.logTimeDict [(cfg.metric_name_func node, t - tb)]] ++
          (if cfg.enable_mlflow = true
            then [Effect.mlflowLogMetrics [(cfg.metric_name_func node, t - tb)]]
            else [])
        err := none } := by
  simp only [after_node_run, dictGet_update_self, h]

theorem after_node_run_of_begin_none (cfg : HookConfig) (st : HookState)
    (node : Node) (t : Rat)
    (h : dictGet st.time_begin_dict (cfg.metric_name_func node) = none) :
    after_node_run cfg st node t =
      { state :=
          { st with
            time_end_dict := dictUpdate st.time_end_dict (cfg.metric_name_func node) t }
        effects := []
        err := some "TypeError: unsupported operand type for -" } := by
  simp only [after_node_run, dictGet_update_self, h]

/-! ### Sample concrete inputs used by witnesses and counterexamples -/

/-- A sample task. -/
def nodeA : Node := { func_name := "task_a", outputs := ["out_a"] }

/-- A second sample task. -/
def nodeB : Node := { func_name := "task_b", outputs := ["out_b"] }

/-- A configuration with both libraries importable and both features
enabled, default chart path, no chart options, default naming. -/
def cfgA : HookConfig := mkHookConfig true true true true none [] _get_metric_name

/-- The state at process start: all three dictionaries empty. -/
def emptyState : HookState :=
  { time_begin_dict := [], time_end_dict := [], time_dict := [] }

/-! ### Claims -/

/-- C1: if `before_node_run` records begin time `t1` and then
`after_node_run` records end time `t2 ≥ t1` for the same derived metric
name, the duration dictionary maps that metric name to `t2 - t1`. -/
theorem C1_duration_recorded (cfg : HookConfig) (st : HookState) (node : Node)
    (t1 t2 : Rat) (h : t1 ≤ t2) :
    dictGet (after_node_run cfg (before_node_run cfg st node t1) node t2).state.time_dict
      (cfg.metric_name_func node) = some (t2 - t1) := by
  have hb : dictGet (before_node_run cfg st node t1).time_begin_dict
      (cfg.metric_name_func node) = some t1 := by
    simp [before_node_run, dictGet_update_self]
  rw [after_node_run_of_begin_some cfg _ node t2 t1 hb]
  exact dictGet_update_self _ _ _

/-- C1 witness: task started at `t = 0` and ended at `t = 2` yields the
duration `2 - 0` under its metric name. -/
theorem C1_witness :
    (0 : Rat) ≤ 2 ∧
    dictGet (after_node_run cfgA (before_node_run cfgA emptyState nodeA 0) nodeA 2).state.time_dict
      (cfgA.metric_name_func nodeA) = some (2 - 0) :=
  ⟨by norm_num, C1_duration_recorded cfgA emptyState nodeA 0 2 (by norm_num)⟩

/-- C2 counterexample: with no begin entry for the metric name,
`after_node_run` raises (`float - None` is a `TypeError` in Python), so
the claim that the call does not raise and merely stores an invalid
duration is false. -/
theorem C2_counterexample :
    dictGet emptyState.time_begin_dict (cfgA.metric_name_func nodeA) = none ∧
    (after_node_run cfgA emptyState nodeA 1).err =
      some "TypeError: unsupported operand type for -" := by
  exact ⟨rfl, rfl⟩

/-- C2 amended: when the metric name has no begin entry, the lookup
defaults to the `None` sentinel and the subtraction raises a
`TypeError` that escapes `after_node_run`; nothing is logged or
forwarded and the duration dictionary is left unchanged. -/
theorem C2_missing_begin_raises (cfg : HookConfig) (st : HookState)
    (node : Node) (t : Rat)
    (h : dictGet st.time_begin_dict (cfg.metric_name_func node) = none) :
    (after_node_run cfg st node t).err =
      some "TypeError: unsupported operand type for -" ∧
    (after_node_run cfg st node t).effects = [] ∧
    (after_node_run cfg st node t).state.time_dict = st.time_dict := by
  rw [after_node_run_of_begin_none cfg st node t h]
  exact ⟨rfl, rfl, rfl⟩

/-- C2 witness: the amended behaviour at a concrete ended-but-never-
started task. -/
theorem C2_witness :
    dictGet emptyState.time_begin_dict (cfgA.metric_name_func nodeB) = none ∧
    ((after_node_run cfgA emptyState nodeB 3).err =
        some "TypeError: unsupported operand type for -" ∧
      (after_node_run cfgA emptyState nodeB 3).effects = [] ∧
      (after_node_run cfgA emptyState nodeB 3).state.time_dict =
        emptyState.time_dict) :=
  ⟨rfl, C2_missing_begin_raises cfgA emptyState nodeB 3 rfl⟩

/-- C9: `after_node_run` is not atomic on error: when the begin entry is
missing it has already written the end timestamp into the end
dictionary when the duration computation raises, while the duration
dictionary is left unchanged. -/
theorem C9_end_written_before_failure (cfg : HookConfig) (st : HookState)
    (node : Node) (t : Rat)
    (h : dictGet st.time_begin_dict (cfg.metric_name_func node) = none) :
    (after_node_run cfg st node t).err.isSome = true ∧
    (after_node_run cfg st node t).state.time_end_dict =
      dictUpdate st.time_end_dict (cfg.metric_name_func node) t ∧
    (after_node_run cfg st node t).state.time_dict = st.time_dict := by
  rw [after_node_run_of_begin_none cfg st node t h]
  exact ⟨rfl, rfl, rfl⟩

/-- C9 witness: the non-atomic error behaviour at a concrete input. -/
theorem C9_witness :
    dictGet emptyState.time_begin_dict (cfgA.metric_name_func nodeA) = none ∧
    ((after_node_run cfgA emptyState nodeA 7).err.isSome = true ∧
      (after_node_run cfgA emptyState nodeA 7).state.time_end_dict =
        dictUpdate emptyState.time_end_dict (cfgA.metric_name_func nodeA) 7 ∧
      (after_node_run cfgA emptyState nodeA 7).state.time_dict =
        emptyState.time_dict) :=
  ⟨rfl, C9_end_written_before_failure cfgA emptyState nodeA 7 rfl⟩

/-- C3: for a task function name containing bracketed segments, the
default metric-name derivation removes the characters `<` and `>` and
truncates the function-name part to at most 250 characters before
appending the declared-output-names suffix. -/
theorem C3_metric_name_sanitized (fn : String) (outs : List String)
    (hb : '<' ∈ fn.data ∨ '>' ∈ fn.data) :
    ∃ core : String,
      _get_metric_name { func_name := fn, outputs := outs } =
        "_time_to_run " ++ core ++ " -- " ++ String.intercalate " - " outs ∧
      core.length ≤ 250 ∧
      ∀ c ∈ core.data, c ≠ '<' ∧ c ≠ '>' := by
  refine ⟨String.mk (((((fn.data.filter
      (fun c => c != '<' && c != '>')).takeWhile
      (fun c => c != ' ')).reverse.takeWhile
      (fun c => c != '.')).reverse).take 250), rfl, ?_, ?_⟩
  · show (List.take 250 _).length ≤ 250
    rw [List.length_take]
    exact min_le_left _ _
  · intro c hc
    have h1 : c ∈ ((((fn.data.filter
        (fun c => c != '<' && c != '>')).takeWhile
        (fun c => c != ' ')).reverse.takeWhile
        (fun c => c != '.')).reverse) :=
      (List.take_sublist _ _).mem hc
    rw [List.mem_reverse] at h1
    have h2 := (List.takeWhile_sublist _).mem h1
    rw [List.mem_reverse] at h2
    have h3 := (List.takeWhile_sublist _).mem h2
    have h4 := (List.mem_filter.mp h3).2
    simp only [Bool.and_eq_true, bne_iff_ne] at h4
    exact h4

/-- C3 witness: a nested function name with `<locals>` yields a
sanitized, bounded metric name. -/
theorem C3_witness :
    ('<' ∈ "outer.<locals>.inner".data ∨ '>' ∈ "outer.<locals>.inner".data) ∧
    (∃ core : String,
      _get_metric_name { func_name := "outer.<locals>.inner", outputs := ["o"] } =
        "_time_to_run " ++ core ++ " -- " ++ String.intercalate " - " ["o"] ∧
      core.length ≤ 250 ∧
      ∀ c ∈ core.data, c ≠ '<' ∧ c ≠ '>') :=
  ⟨by decide, C3_metric_name_sanitized "outer.<locals>.inner" ["o"] (by decide)⟩

/-! ### Lemmas about the Gantt row comprehension and `after_pipeline_run` -/

theorem buildRows_some (bm em : List (String × Rat)) (ks : List String)
    (h : ∀ k ∈ ks, (dictGet bm k).isSome = true ∧ (dictGet em k).isSome = true) :
    ∃ rows : List GanttRow, buildRows bm em ks = some rows ∧
      rows.map GanttRow.Task = ks ∧
      ∀ r ∈ rows,
        (∃ b, dictGet bm r.Task = some b ∧ r.Start = b * 1000) ∧
        (∃ e, dictGet em r.Task = some e ∧ r.Finish = e * 1000) := by
  induction ks with
  | nil => exact ⟨[], rfl, rfl, by simp⟩
  | cons k ks ih =>
    obtain ⟨hbk, hek⟩ := h k (List.mem_cons_self k ks)
    obtain ⟨b, hb⟩ := Option.isSome_iff_exists.mp hbk
    obtain ⟨e, he⟩ := Option.isSome_iff_exists.mp hek
    obtain ⟨rows, hrows, hmap, hprops⟩ :=
      ih (fun k' hk' => h k' (List.mem_cons_of_mem k hk'))
    refine ⟨{ Task := k, Start := b * 1000, Finish := e * 1000 } :: rows, ?_, ?_, ?_⟩
    · simp [buildRows, hb, he, hrows]
    · simp [hmap]
    · intro r hr
      rcases List.mem_cons.mp hr with hr | hr
      · subst hr
        exact ⟨⟨b, hb, rfl⟩, ⟨e, he, rfl⟩⟩
      · exact hprops r hr

theorem buildRows_none (bm em : List (String × Rat)) (ks : List String)
    (h : ∃ k ∈ ks, dictGet em k = none) :
    buildRows bm em ks = none := by
  induction ks with
  | nil => simp at h
  | cons k ks ih =>
    obtain ⟨k', hk', hnone⟩ := h
    rcases List.mem_cons.mp hk' with rfl | hmem
    · cases hbm : dictGet bm k' with
      | none => simp [buildRows, hbm]
      | some b => simp [buildRows, hbm, hnone]
    · cases hbm : dictGet bm k with
      | none => simp [buildRows, hbm]
      | some b =>
        cases hem : dictGet em k with
        | none => simp [buildRows, hbm, hem]
        | some e => simp [buildRows, hbm, hem, ih ⟨k', hmem, hnone⟩]

theorem after_pipeline_run_of_rows (cfg : HookConfig) (st : HookState)
    (tmpdir : String) (rows : List GanttRow)
    (hp : cfg.enable_plotly = true) (hne : st.time_begin_dict ≠ [])
    (hrows : buildRows st.time_begin_dict st.time_end_dict
      (dictKeys st.time_begin_dict) = some rows) :
    after_pipeline_run cfg st tmpdir =
      { state := st
        effects := [Effect.logTimeDict st.time_dict,
          Effect.createGantt rows cfg.gantt_params,
          Effect.mkdirParent (resolveGanttPath cfg.gantt_filepath tmpdir),
          Effect.writeHtml (resolveGanttPath cfg.gantt_filepath tmpdir)] ++
          (if cfg.enable_mlflow = true
            then [Effect.mlflowLogArtifact (resolveGanttPath cfg.gantt_filepath tmpdir)]
            else [])
        err := none } := by
  have hempty : st.time_begin_dict.isEmpty = false := by
    cases hd : st.time_begin_dict with
    | nil => exact absurd hd hne
    | cons p rest => rfl
  unfold after_pipeline_run after_pipeline_run_output
  rw [hp, hempty, hrows]
  simp

theorem after_pipeline_run_of_rows_none (cfg : HookConfig) (st : HookState)
    (tmpdir : String)
    (hp : cfg.enable_plotly = true) (hne : st.time_begin_dict ≠ [])
    (hrows : buildRows st.time_begin_dict st.time_end_dict
      (dictKeys st.time_begin_dict) = none) :
    after_pipeline_run cfg st tmpdir =
      { state := st
        effects := [Effect.logTimeDict st.time_dict]
        err := some "TypeError: unsupported operand type for *" } := by
  have hempty : st.time_begin_dict.isEmpty = false := by
    cases hd : st.time_begin_dict with
    | nil => exact absurd hd hne
    | cons p rest => rfl
  unfold after_pipeline_run after_pipeline_run_output
  rw [hp, hempty, hrows]
  simp

theorem after_pipeline_run_of_skip (cfg : HookConfig) (st : HookState)
    (tmpdir : String)
    (h : cfg.enable_plotly = false ∨ st.time_begin_dict = []) :
    after_pipeline_run cfg st tmpdir =
      { state := st
        effects := [Effect.logTimeDict st.time_dict]
        err := none } := by
  unfold after_pipeline_run after_pipeline_run_output
  rcases h with h | h
  · rw [h]; simp
  · rw [h]; simp

theorem logTimeDict_mem_pipeline (cfg : HookConfig) (st : HookState)
    (tmpdir : String) :
    Effect.logTimeDict st.time_dict ∈ (after_pipeline_run cfg st tmpdir).effects := by
  show Effect.logTimeDict st.time_dict ∈ (after_pipeline_run_output cfg st tmpdir).1
  unfold after_pipeline_run_output
  split
  · split <;> simp
  · simp

/-- A state obtained from two non-overlapping tasks: "A" ran on [0, 2]
and "B" ran on [3, 5]. -/
def twoTaskState : HookState :=
  { time_begin_dict := [("A", 0), ("B", 3)]
    time_end_dict := [("A", 2), ("B", 5)]
    time_dict := [("A", 2), ("B", 2)] }

/-- A state in which one task started but never ended. -/
def startedOnlyState : HookState :=
  { time_begin_dict := [("A", 1)]
    time_end_dict := []
    time_dict := [] }

/-- C4: at pipeline end with chart rendering enabled and a non-empty
begin dictionary (and an end entry for every begun task, without which
the comprehension raises, see C10), the hook logs the duration
dictionary, builds exactly one row per begin-dictionary key with
`Start`/`Finish` the begin/end timestamps times 1000, invokes chart
construction with the configured options, creates the parent
directories of the configured-or-default path and writes the chart
there. -/
theorem C4_chart_rows_and_write (cfg : HookConfig) (st : HookState) (tmpdir : String)
    (hp : cfg.enable_plotly = true)
    (hne : st.time_begin_dict ≠ [])
    (hall : ∀ k ∈ dictKeys st.time_begin_dict,
      (dictGet st.time_end_dict k).isSome = true) :
    ∃ rows : List GanttRow,
      (after_pipeline_run cfg st tmpdir).effects =
        [Effect.logTimeDict st.time_dict,
         Effect.createGantt rows cfg.gantt_params,
         Effect.mkdirParent (resolveGanttPath cfg.gantt_filepath tmpdir),
         Effect.writeHtml (resolveGanttPath cfg.gantt_filepath tmpdir)] ++
        (if cfg.enable_mlflow = true
          then [Effect.mlflowLogArtifact (resolveGanttPath cfg.gantt_filepath tmpdir)]
          else []) ∧
      (after_pipeline_run cfg st tmpdir).err = none ∧
      rows.map GanttRow.Task = dictKeys st.time_begin_dict ∧
      ∀ r ∈ rows,
        (∃ b, dictGet st.time_begin_dict r.Task = some b ∧ r.Start = b * 1000) ∧
        (∃ e, dictGet st.time_end_dict r.Task = some e ∧ r.Finish = e * 1000) := by
  obtain ⟨rows, hrows, hmap, hprops⟩ := buildRows_some st.time_begin_dict
    st.time_end_dict (dictKeys st.time_begin_dict)
    (fun k hk => ⟨dictGet_isSome_of_mem_keys _ _ hk, hall k hk⟩)
  refine ⟨rows, ?_, ?_, hmap, hprops⟩
  · rw [after_pipeline_run_of_rows cfg st tmpdir rows hp hne hrows]
  · rw [after_pipeline_run_of_rows cfg st tmpdir rows hp hne hrows]

/-- C4 witness: two non-overlapping tasks give one chart row each, with
millisecond start/finish taken from the timestamp dictionaries. -/
theorem C4_witness :
    cfgA.enable_plotly = true ∧
    twoTaskState.time_begin_dict ≠ [] ∧
    (∀ k ∈ dictKeys twoTaskState.time_begin_dict,
      (dictGet twoTaskState.time_end_dict k).isSome = true) ∧
    (∃ rows : List GanttRow,
      (after_pipeline_run cfgA twoTaskState "/tmp").effects =
        [Effect.logTimeDict twoTaskState.time_dict,
         Effect.createGantt rows cfgA.gantt_params,
         Effect.mkdirParent (resolveGanttPath cfgA.gantt_filepath "/tmp"),
         Effect.writeHtml (resolveGanttPath cfgA.gantt_filepath "/tmp")] ++
        (if cfgA.enable_mlflow = true
          then [Effect.mlflowLogArtifact (resolveGanttPath cfgA.gantt_filepath "/tmp")]
          else []) ∧
      (after_pipeline_run cfgA twoTaskState "/tmp").err = none ∧
      rows.map GanttRow.Task = dictKeys twoTaskState.time_begin_dict ∧
      ∀ r ∈ rows,
        (∃ b, dictGet twoTaskState.time_begin_dict r.Task = some b ∧ r.Start = b * 1000) ∧
        (∃ e, dictGet twoTaskState.time_end_dict r.Task = some e ∧ r.Finish = e * 1000)) :=
  ⟨rfl, by decide, by decide,
    C4_chart_rows_and_write cfgA twoTaskState "/tmp" rfl (by decide) (by decide)⟩

/-- C6: the three dictionaries grow monotonically: `before_node_run`
and `after_node_run` only add or overwrite entries (every existing key
stays present) and touch no other dictionary, and `after_pipeline_run`
leaves the whole state unchanged; nothing is ever removed or cleared. -/
theorem C6_maps_grow_monotonically (cfg : HookConfig) (st : HookState)
    (node : Node) (t : Rat) (tmpdir : String) (k : String) :
    ((dictGet st.time_begin_dict k).isSome = true →
      (dictGet (before_node_run cfg st node t).time_begin_dict k).isSome = true) ∧
    (before_node_run cfg st node t).time_end_dict = st.time_end_dict ∧
    (before_node_run cfg st node t).time_dict = st.time_dict ∧
    ((dictGet st.time_end_dict k).isSome = true →
      (dictGet (after_node_run cfg st node t).state.time_end_dict k).isSome = true) ∧
    ((dictGet st.time_dict k).isSome = true →
      (dictGet (after_node_run cfg st node t).state.time_dict k).isSome = true) ∧
    (after_node_run cfg st node t).state.time_begin_dict = st.time_begin_dict ∧
    (after_pipeline_run cfg st tmpdir).state = st := by
  refine ⟨?_, rfl, rfl, ?_, ?_, ?_, rfl⟩
  · intro h
    exact dictGet_update_isSome _ _ _ _ h
  · intro h
    cases hbg : dictGet st.time_begin_dict (cfg.metric_name_func node) with
    | none =>
      rw [after_node_run_of_begin_none cfg st node t hbg]
      exact dictGet_update_isSome _ _ _ _ h
    | some tb =>
      rw [after_node_run_of_begin_some cfg st node t tb hbg]
      exact dictGet_update_isSome _ _ _ _ h
  · intro h
    cases hbg : dictGet st.time_begin_dict (cfg.metric_name_func node) with
    | none =>
      rw [after_node_run_of_begin_none cfg st node t hbg]
      exact h
    | some tb =>
      rw [after_node_run_of_begin_some cfg st node t tb hbg]
      exact dictGet_update_isSome _ _ _ _ h
  · cases hbg : dictGet st.time_begin_dict (cfg.metric_name_func node) with
    | none => rw [after_node_run_of_begin_none cfg st node t hbg]
    | some tb => rw [after_node_run_of_begin_some cfg st node t tb hbg]

/-- C6 witness: the monotonicity properties at a concrete state, task,
time, temp directory and key. -/
theorem C6_witness :
    ((dictGet emptyState.time_begin_dict "x").isSome = true →
      (dictGet (before_node_run cfgA emptyState nodeA 1).time_begin_dict "x").isSome = true) ∧
    (before_node_run cfgA emptyState nodeA 1).time_end_dict = emptyState.time_end_dict ∧
    (before_node_run cfgA emptyState nodeA 1).time_dict = emptyState.time_dict ∧
    ((dictGet emptyState.time_end_dict "x").isSome = true →
      (dictGet (after_node_run cfgA emptyState nodeA 1).state.time_end_dict "x").isSome = true) ∧
    ((dictGet emptyState.time_dict "x").isSome = true →
      (dictGet (after_node_run cfgA emptyState nodeA 1).state.time_dict "x").isSome = true) ∧
    (after_node_run cfgA emptyState nodeA 1).state.time_begin_dict = emptyState.time_begin_dict ∧
    (after_pipeline_run cfgA emptyState "/tmp").state = emptyState :=
  C6_maps_grow_monotonically cfgA emptyState nodeA 1 "/tmp" "x"

/-- C7: `after_pipeline_run` never mutates the state, so calling it a
second time with no intervening task events reads the same dictionaries
and returns the identical result (same log, same rows, same chart
path). -/
theorem C7_pipeline_end_idempotent (cfg : HookConfig) (st : HookState)
    (tmpdir : String) :
    (after_pipeline_run cfg st tmpdir).state = st ∧
    after_pipeline_run cfg (after_pipeline_run cfg st tmpdir).state tmpdir =
      after_pipeline_run cfg st tmpdir :=
  ⟨rfl, rfl⟩

/-- C8: with no chart output path configured, the chart is written to
the file `_gantt.html` in the system temp directory. -/
theorem C8_default_gantt_path (cfg : HookConfig) (st : HookState) (tmpdir : String)
    (hfp : cfg.gantt_filepath = none)
    (hp : cfg.enable_plotly = true)
    (hne : st.time_begin_dict ≠ [])
    (hall : ∀ k ∈ dictKeys st.time_begin_dict,
      (dictGet st.time_end_dict k).isSome = true) :
    resolveGanttPath cfg.gantt_filepath tmpdir = tmpdir ++ "/_gantt.html" ∧
    Effect.writeHtml (tmpdir ++ "/_gantt.html") ∈
      (after_pipeline_run cfg st tmpdir).effects := by
  have hpath : resolveGanttPath cfg.gantt_filepath tmpdir = tmpdir ++ "/_gantt.html" := by
    rw [hfp]
    rfl
  obtain ⟨rows, hrows, hmap, hprops⟩ := buildRows_some st.time_begin_dict
    st.time_end_dict (dictKeys st.time_begin_dict)
    (fun k hk => ⟨dictGet_isSome_of_mem_keys _ _ hk, hall k hk⟩)
  refine ⟨hpath, ?_⟩
  rw [after_pipeline_run_of_rows cfg st tmpdir rows hp hne hrows]
  simp [hpath]

/-- C8 witness: the default path at a concrete run. -/
theorem C8_witness :
    cfgA.gantt_filepath = none ∧
    cfgA.enable_plotly = true ∧
    twoTaskState.time_begin_dict ≠ [] ∧
    (∀ k ∈ dictKeys twoTaskState.time_begin_dict,
      (dictGet twoTaskState.time_end_dict k).isSome = true) ∧
    (resolveGanttPath cfgA.gantt_filepath "/tmp" = "/tmp" ++ "/_gantt.html" ∧
      Effect.writeHtml ("/tmp" ++ "/_gantt.html") ∈
        (after_pipeline_run cfgA twoTaskState "/tmp").effects) :=
  ⟨rfl, rfl, by decide, by decide,
    C8_default_gantt_path cfgA twoTaskState "/tmp" rfl rfl (by decide) (by decide)⟩

/-- C10: with chart rendering enabled, if some begun task has no end
timestamp, the row comprehension raises on the missing value rather
than skipping the row: `after_pipeline_run` raises and emits only the
log effect (no chart is constructed or written). -/
theorem C10_missing_end_reaches_error (cfg : HookConfig) (st : HookState)
    (tmpdir : String) (k : String)
    (hp : cfg.enable_plotly = true)
    (hk : k ∈ dictKeys st.time_begin_dict)
    (he : dictGet st.time_end_dict k = none) :
    (after_pipeline_run cfg st tmpdir).err =
      some "TypeError: unsupported operand type for *" ∧
    (after_pipeline_run cfg st tmpdir).effects = [Effect.logTimeDict st.time_dict] := by
  have hne : st.time_begin_dict ≠ [] := by
    intro hnil
    rw [hnil] at hk
    simp [dictKeys] at hk
  have hrows := buildRows_none st.time_begin_dict st.time_end_dict
    (dictKeys st.time_begin_dict) ⟨k, hk, he⟩
  rw [after_pipeline_run_of_rows_none cfg st tmpdir hp hne hrows]
  exact ⟨rfl, rfl⟩

/-- C10 witness: one started-but-never-ended task makes the pipeline-end
chart branch raise. -/
theorem C10_witness :
    cfgA.enable_plotly = true ∧
    "A" ∈ dictKeys startedOnlyState.time_begin_dict ∧
    dictGet startedOnlyState.time_end_dict "A" = none ∧
    ((after_pipeline_run cfgA startedOnlyState "/tmp").err =
        some "TypeError: unsupported operand type for *" ∧
      (after_pipeline_run cfgA startedOnlyState "/tmp").effects =
        [Effect.logTimeDict startedOnlyState.time_dict]) :=
  ⟨rfl, by decide, rfl,
    C10_missing_end_reaches_error cfgA startedOnlyState "/tmp" "A" rfl (by decide) rfl⟩

/-- C5 counterexample: at construction mlflow is importable and its
enable flag is true, yet `after_pipeline_run` makes no artifact upload
because the begin dictionary is empty, refuting the claimed "if and
only if the enable flag was true and the library was importable". -/
theorem C5_counterexample :
    (mkHookConfig true true true true none [] _get_metric_name).enable_mlflow = true ∧
    (after_pipeline_run (mkHookConfig true true true true none [] _get_metric_name)
        emptyState "/tmp").effects = [Effect.logTimeDict []] :=
  ⟨rfl, rfl⟩

/-- C5 amended: capabilities are probed exactly once, at construction
(the stored flags are the conjunction of the import probe and the
constructor flag, and later calls consult only the stored flags);
metrics forwarding at task end happens iff the stored mlflow flag holds
and the call did not raise; artifact upload at pipeline end happens iff
the stored mlflow flag holds, the stored plotly flag holds, the begin
dictionary is nonempty and the call did not raise; when the capability
is absent no external call is attempted, and the pipeline-end log is
always emitted (the task-end log is emitted iff the call did not
raise). -/
theorem C5_capability_gating (ma pa em ep : Bool) (fp : Option String)
    (gp : List (String × String)) (f : Node → String)
    (cfg : HookConfig) (st : HookState) (node : Node) (t : Rat) (tmpdir : String) :
    (mkHookConfig ma pa em ep fp gp f).enable_mlflow = (ma && em) ∧
    (mkHookConfig ma pa em ep fp gp f).enable_plotly = (pa && ep) ∧
    ((∃ d, Effect.mlflowLogMetrics d ∈ (after_node_run cfg st node t).effects) ↔
      (cfg.enable_mlflow = true ∧ (after_node_run cfg st node t).err = none)) ∧
    ((∃ d, Effect.logTimeDict d ∈ (after_node_run cfg st node t).effects) ↔
      (after_node_run cfg st node t).err = none) ∧
    ((∃ p, Effect.mlflowLogArtifact p ∈ (after_pipeline_run cfg st tmpdir).effects) ↔
      (cfg.enable_mlflow = true ∧ cfg.enable_plotly = true ∧
        st.time_begin_dict ≠ [] ∧ (after_pipeline_run cfg st tmpdir).err = none)) ∧
    Effect.logTimeDict st.time_dict ∈ (after_pipeline_run cfg st tmpdir).effects := by
  refine ⟨rfl, rfl, ?_, ?_, ?_, logTimeDict_mem_pipeline cfg st tmpdir⟩
  · cases hbg : dictGet st.time_begin_dict (cfg.metric_name_func node) with
    | none =>
      rw [after_node_run_of_begin_none cfg st node t hbg]
      simp
    | some tb =>
      rw [after_node_run_of_begin_some cfg st node t tb hbg]
      cases hm : cfg.enable_mlflow <;> simp
  · cases hbg : dictGet st.time_begin_dict (cfg.metric_name_func node) with
    | none =>
      rw [after_node_run_of_begin_none cfg st node t hbg]
      simp
    | some tb =>
      rw [after_node_run_of_begin_some cfg st node t tb hbg]
      cases hm : cfg.enable_mlflow <;> simp
  · by_cases hp : cfg.enable_plotly = true
    · by_cases hne : st.time_begin_dict = []
      · rw [after_pipeline_run_of_skip cfg st tmpdir (Or.inr hne)]
        simp [hne]
      · cases hrows : buildRows st.time_begin_dict st.time_end_dict
          (dictKeys st.time_begin_dict) with
        | none =>
          rw [after_pipeline_run_of_rows_none cfg st tmpdir hp hne hrows]
          simp
        | some rows =>
          rw [after_pipeline_run_of_rows cfg st tmpdir rows hp hne hrows]
          cases hm : cfg.enable_mlflow <;> simp [hp, hne]
    · have hp' : cfg.enable_plotly = false := by
        cases hpv : cfg.enable_plotly with
        | false => rfl
        | true => exact absurd hpv hp
      rw [after_pipeline_run_of_skip cfg st tmpdir (Or.inl hp')]
      simp [hp']
